import Mathlib

/-!
Shallow embedding of the order-management service of
github.com/mfritschdotgo/techchallenge (Go), restricted to the order
workflow: OrderService.CreateOrder, ConvertDTOtoSlice,
OrderService.GetOrderByID and OrderService.GetOrders
(internal/core/service, the file given as src/unnamed/part_000).

Modelling conventions:
- Go float64 monetary values are modelled as exact rationals (ℚ); the
  source performs only additions and multiplications on them.
- A Go error built by fmt.Errorf with a %w verb is modelled by the
  GoError.wrap constructor: wrap s e stands for the error whose message
  is s ++ ": " ++ message of e and whose unwrapped cause is e.
- The external collaborators (client service, product service, order
  repository) and the domain constructor are parameters of the service,
  gathered in the Collab structure; each call to a collaborator is
  recorded in a trace of Event values, so the functions return the
  trace of collaborator calls together with their Go return value.
- Go's map[string]float64 is modelled as a total function String → ℚ
  whose default value is 0, matching Go's zero-value map indexing.
-/

namespace TechChallenge

/-- Go errors as produced by this service: a base error message, or a
fmt.Errorf wrapping (label ++ ": %w") of an underlying cause. -/
inductive GoError where
  | msg (s : String)
  | wrap (s : String) (e : GoError)
  deriving DecidableEq

/-- domain.Client, reduced to the field the order workflow consumes. -/
structure Client where
  id : String
  deriving DecidableEq

/-- domain.Product, reduced to the fields the order workflow consumes. -/
structure Product where
  id : String
  price : ℚ
  deriving DecidableEq

/-- dto.ProductItem: one requested line, a product id and a quantity. -/
structure ProductItem where
  id : String
  quantity : Int
  deriving DecidableEq

/-- dto.CreateOrderRequest: client id, requested lines, status string. -/
structure CreateOrderRequest where
  client : String
  products : List ProductItem
  status : String
  deriving DecidableEq

/-- domain.OrderItem. Following ConvertDTOtoSlice in the source, the
price field stores the LINE TOTAL (unit price × quantity), not the unit
price. -/
structure OrderItem where
  productID : String
  quantity : Int
  price : ℚ
  deriving DecidableEq

/-- domain.Order, the aggregate root: identifier, client reference,
line items, status, aggregate total. -/
structure Order where
  id : String
  client : String
  items : List OrderItem
  status : String
  total : ℚ
  deriving DecidableEq

/-- One collaborator call made by the service. CreateOrder records the
order handed to the repository inside its event. -/
inductive Event where
  | clientLookup (cpf : String)
  | productLookup (id : String)
  | repoCreateOrder (o : Order)
  | repoGetOrder (id : String)
  | repoGetOrders (page size : Int)
  deriving DecidableEq

/-- The injected collaborators of OrderService, plus the behaviour of
the domain constructor.

clientLookup models ClientService.GetClientByCPF, productLookup models
ProductService.GetProductByID, and the repo fields model
port.OrderRepository — all external to the assembly code and given by
the spec only at their interface boundary (a record or an error).

validateOrder and freshId parameterize domain.NewOrder, which is not
under src/; see NewOrder below. -/
structure Collab where
  clientLookup : String → Except GoError Client
  productLookup : String → Except GoError Product
  validateOrder : String → List OrderItem → String → ℚ → Option GoError
  freshId : String
  repoCreateOrder : Order → Except GoError Order
  repoGetOrderByID : String → Except GoError Order
  repoGetOrders : Int → Int → Except GoError (List Order)

/-- Modelled from the spec: domain.NewOrder is not under src/. Per the
spec, construction builds the aggregate from the client identifier, the
computed line items (each carrying its frozen line total), the supplied
status and the aggregate total, assigning a fresh unique identifier,
and construction itself may fail structural validation, surfaced as an
error. The possible failure is abstracted as the validateOrder oracle;
on success the aggregate carries exactly the given fields. -/
def NewOrder (S : Collab) (client : String) (items : List OrderItem)
    (status : String) (total : ℚ) : Except GoError Order :=
  match S.validateOrder client items status total with
  | some e => .error e
  | none => .ok { id := S.freshId, client := client, items := items,
                  status := status, total := total }

/-- Go map assignment m[k] = v on a zero-defaulted string-keyed map. -/
def mapInsert (m : String → ℚ) (k : String) (v : ℚ) : String → ℚ :=
  fun x => if x = k then v else m x

/-- The product-resolution loop of OrderService.CreateOrder: walks the
requested lines in submission order, looks each product up, accumulates
the running total and the product-price map, and aborts on the first
lookup failure with the product-validation error for that line. -/
def productLoop (lookup : String → Except GoError Product) :
    List ProductItem → ℚ → (String → ℚ) → List Event →
      List Event × Except GoError (ℚ × (String → ℚ))
  | [], total, m, evs => (evs, .ok (total, m))
  | item :: rest, total, m, evs =>
    match lookup item.id with
    | .error e =>
        (evs ++ [.productLookup item.id],
         .error (.wrap ("product validation failed for product ID " ++ item.id) e))
    | .ok product =>
        productLoop lookup rest (total + product.price * (item.quantity : ℚ))
          (mapInsert m item.id product.price) (evs ++ [.productLookup item.id])

/-- service.ConvertDTOtoSlice: builds the domain items, each carrying
prices[item.ID] * quantity in its price field. -/
def ConvertDTOtoSlice (dtoProducts : List ProductItem) (prices : String → ℚ) :
    List OrderItem :=
  dtoProducts.map fun item =>
    { productID := item.id, quantity := item.quantity,
      price := prices item.id * (item.quantity : ℚ) }

/-- OrderService.CreateOrder: validate the client, resolve every
product (fail-fast), convert the lines, construct the aggregate, and
persist it; each failure is wrapped with the message the source uses. -/
def CreateOrder (S : Collab) (req : CreateOrderRequest) :
    List Event × Except GoError Order :=
  match S.clientLookup req.client with
  | .error e =>
      ([.clientLookup req.client], .error (.wrap "client validation failed" e))
  | .ok _ =>
    match productLoop S.productLookup req.products 0 (fun _ => 0)
        [Event.clientLookup req.client] with
    | (evs, .error e) => (evs, .error e)
    | (evs, .ok (total, priceMap)) =>
      let items := ConvertDTOtoSlice req.products priceMap
      match NewOrder S req.client items req.status total with
      | .error e => (evs, .error (.wrap "failed to create order instance" e))
      | .ok order =>
        match S.repoCreateOrder order with
        | .error e =>
            (evs ++ [.repoCreateOrder order], .error (.wrap "failed to save order" e))
        | .ok savedOrder => (evs ++ [.repoCreateOrder order], .ok savedOrder)

/-- A UUID as its 16 bytes. -/
abbrev UUID := List Nat

/-- Hexadecimal digit value of a character, case-insensitive (the xtob
table of github.com/google/uuid). -/
def hexVal (c : Char) : Option Nat :=
  if '0' ≤ c ∧ c ≤ '9' then some (c.toNat - 48)
  else if 'a' ≤ c ∧ c ≤ 'f' then some (c.toNat - 87)
  else if 'A' ≤ c ∧ c ≤ 'F' then some (c.toNat - 55)
  else none

/-- Decode a list of hex characters two at a time into bytes. -/
def parseHexPairs : List Char → Option (List Nat)
  | [] => some []
  | a :: b :: rest =>
    match hexVal a, hexVal b with
    | some ha, some hb =>
      match parseHexPairs rest with
      | some t => some ((ha * 16 + hb) :: t)
      | none => none
    | _, _ => none
  | _ => none

/-- Check the four hyphens of the canonical 36-character form and
return the 32 hex characters. -/
def stripHyphens (l : List Char) : Option (List Char) :=
  if l.length = 36 ∧ l.get? 8 = some '-' ∧ l.get? 13 = some '-' ∧
      l.get? 18 = some '-' ∧ l.get? 23 = some '-' then
    some (l.take 8 ++ ((l.drop 9).take 4) ++ ((l.drop 14).take 4) ++
      ((l.drop 19).take 4) ++ l.drop 24)
  else none

/-- Parse the canonical xxxxxxxx-xxxx-xxxx-xxxx-xxxxxxxxxxxx form. -/
def parse36 (l : List Char) : Except GoError UUID :=
  match stripHyphens l with
  | none => .error (.msg "invalid UUID format")
  | some hexChars =>
    match parseHexPairs hexChars with
    | some bytes => .ok bytes
    | none => .error (.msg "invalid UUID format")

/-- ASCII lower-casing of one character. -/
def toLowerChar (c : Char) : Char :=
  if 'A' ≤ c ∧ c ≤ 'Z' then Char.ofNat (c.toNat + 32) else c

/-- Embedding of uuid.Parse of github.com/google/uuid, the library the
source calls: accepts the 36-character canonical form, the urn:uuid:
form (case-insensitive tag), the braced form (whose first character is
dropped unchecked, as in the library), and the 32-character bare-hex
form; any other length is rejected with the length error. -/
def uuidParse (s : String) : Except GoError UUID :=
  let l := s.data
  if l.length = 36 then parse36 l
  else if l.length = 45 then
    if (l.take 9).map toLowerChar = "urn:uuid:".data then parse36 (l.drop 9)
    else .error (.msg ("invalid urn prefix: " ++ "\"" ++ String.mk (l.take 9) ++ "\""))
  else if l.length = 38 then parse36 ((l.drop 1).take 36)
  else if l.length = 32 then
    match parseHexPairs l with
    | some bytes => .ok bytes
    | none => .error (.msg "invalid UUID format")
  else .error (.msg ("invalid UUID length: " ++ toString l.length))

/-- Lower-case hex character of a nibble. -/
def hexDigit (n : Nat) : Char :=
  if n < 10 then Char.ofNat (48 + n) else Char.ofNat (87 + n)

/-- Two lower-case hex characters of a byte. -/
def byteHex (b : Nat) : List Char :=
  [hexDigit (b / 16), hexDigit (b % 16)]

/-- Embedding of UUID.String of github.com/google/uuid: the canonical
lower-case hyphenated rendering. -/
def uuidString (u : UUID) : String :=
  String.mk ((u.take 4).flatMap byteHex ++ '-' :: ((u.drop 4).take 2).flatMap byteHex ++
    '-' :: ((u.drop 6).take 2).flatMap byteHex ++ '-' :: ((u.drop 8).take 2).flatMap byteHex ++
    '-' :: (u.drop 10).flatMap byteHex)

/-- OrderService.GetOrderByID: parse the identifier, query the
repository with the re-serialized canonical form, and wrap any
repository error as "order not found". -/
def GetOrderByID (S : Collab) (id : String) : List Event × Except GoError Order :=
  match uuidParse id with
  | .error e => ([], .error (.wrap "invalid ID format" e))
  | .ok u =>
    match S.repoGetOrderByID (uuidString u) with
    | .error e => ([.repoGetOrder (uuidString u)], .error (.wrap "order not found" e))
    | .ok order => ([.repoGetOrder (uuidString u)], .ok order)

/-- OrderService.GetOrders: normalize non-positive page to 1 and
non-positive size to 10, delegate to the repository, and return its
result — errors unchanged. -/
def GetOrders (S : Collab) (page size : Int) :
    List Event × Except GoError (List Order) :=
  let p := if page ≤ 0 then 1 else page
  let s := if size ≤ 0 then 10 else size
  match S.repoGetOrders p s with
  | .error e => ([.repoGetOrders p s], .error e)
  | .ok orders => ([.repoGetOrders p s], .ok orders)

/-- The unit price a successful lookup returned (0 on a failed lookup;
only used beneath a success hypothesis). -/
def okPrice : Except GoError Product → ℚ
  | .ok p => p.price
  | .error _ => 0

/-- A concrete collaborator bundle used to exercise the service on the
spec's concrete scenario: client 11122233344 exists, products P1
(price 10) and P2 (price 11/2 = 5.50) exist, construction always
succeeds, the repository echoes the order it persists, and lookups by
identifier report the driver's not-found error. -/
def demoCollab : Collab where
  clientLookup := fun cpf =>
    if cpf = "11122233344" then .ok { id := "11122233344" }
    else .error (.msg "client not found")
  productLookup := fun pid =>
    if pid = "P1" then .ok { id := "P1", price := 10 }
    else if pid = "P2" then .ok { id := "P2", price := 11 / 2 }
    else .error (.msg "product not found")
  validateOrder := fun _ _ _ _ => none
  freshId := "7d444840-9dc0-11d1-b245-5ffdce74fad2"
  repoCreateOrder := fun o => .ok o
  repoGetOrderByID := fun _ => .error (.msg "mongo: no documents in result")
  repoGetOrders := fun _ _ => .ok []

/-- The spec's concrete creation scenario: two resolvable lines. -/
def demoReq : CreateOrderRequest where
  client := "11122233344"
  products := [{ id := "P1", quantity := 2 }, { id := "P2", quantity := 3 }]
  status := "pending"

/-- A request whose second line references the unknown product P9. -/
def demoReqP9 : CreateOrderRequest where
  client := "11122233344"
  products := [{ id := "P1", quantity := 2 }, { id := "P9", quantity := 1 },
               { id := "P2", quantity := 3 }]
  status := "pending"

/-- A request for an unknown client. -/
def demoReqBadClient : CreateOrderRequest where
  client := "00000000000"
  products := [{ id := "P1", quantity := 2 }]
  status := "pending"

/-- A request with an empty product list. -/
def demoReqEmpty : CreateOrderRequest where
  client := "11122233344"
  products := []
  status := "pending"

/-- A request containing a line whose quantity is not positive. -/
def demoReqZeroQty : CreateOrderRequest where
  client := "11122233344"
  products := [{ id := "P1", quantity := 0 }]
  status := "pending"

/-- demoCollab with a repository whose get-by-id fails with an error
that is not a not-found signal. -/
def repoDownCollab : Collab :=
  { demoCollab with repoGetOrderByID := fun _ => .error (.msg "connection refused") }

/-- A well-formed identifier in canonical form. -/
def validId : String := "123e4567-e89b-12d3-a456-426614174000"

/-- The same identifier written in upper case. -/
def validIdUpper : String := "123E4567-E89B-12D3-A456-426614174000"

/-- The bytes of validId. -/
def validIdBytes : UUID :=
  [18, 62, 69, 103, 232, 155, 18, 211, 164, 86, 66, 102, 20, 23, 64, 0]

/-- The order the demo scenario constructs and persists: line totals
20 and 33/2 (16.50), aggregate total 73/2 (36.50). -/
def demoOrder : Order where
  id := "7d444840-9dc0-11d1-b245-5ffdce74fad2"
  client := "11122233344"
  items := [{ productID := "P1", quantity := 2, price := 20 },
            { productID := "P2", quantity := 3, price := 33 / 2 }]
  status := "pending"
  total := 73 / 2

/-- The order the zero-quantity request constructs and persists. -/
def zeroQtyOrder : Order where
  id := "7d444840-9dc0-11d1-b245-5ffdce74fad2"
  client := "11122233344"
  items := [{ productID := "P1", quantity := 0, price := 0 }]
  status := "pending"
  total := 0

/-- When every requested line resolves, the product loop records one
lookup event per line in submission order, adds each line's unit price
times its quantity to the running total, and the resulting price map
agrees with the lookup on every requested id and with the initial map
elsewhere. -/
theorem productLoop_ok (lookup : String → Except GoError Product)
    (l : List ProductItem) (total : ℚ) (m : String → ℚ) (evs : List Event)
    (h : ∀ it ∈ l, ∃ p, lookup it.id = .ok p) :
    ∃ m2,
      productLoop lookup l total m evs =
        (evs ++ l.map (fun it => Event.productLookup it.id),
         .ok (total + (l.map fun it => okPrice (lookup it.id) * (it.quantity : ℚ)).sum, m2))
      ∧ (∀ it ∈ l, m2 it.id = okPrice (lookup it.id))
      ∧ (∀ x, (∀ it ∈ l, it.id ≠ x) → m2 x = m x) := by
  induction l generalizing total m evs with
  | nil =>
    exact ⟨m, by simp [productLoop], by simp, fun x _ => rfl⟩
  | cons item rest ih =>
    obtain ⟨p, hp⟩ := h item (List.mem_cons_self item rest)
    have hrest : ∀ it ∈ rest, ∃ q, lookup it.id = .ok q :=
      fun it hit => h it (List.mem_cons_of_mem _ hit)
    obtain ⟨m2, heq, hmem, hout⟩ :=
      ih (total + p.price * (item.quantity : ℚ))
        (mapInsert m item.id p.price) (evs ++ [.productLookup item.id]) hrest
    refine ⟨m2, ?_, ?_, ?_⟩
    · have hop : okPrice (lookup item.id) = p.price := by rw [hp]; rfl
      simp only [productLoop, hp, heq]
      have harith : total + p.price * (item.quantity : ℚ) +
          (List.map (fun it => okPrice (lookup it.id) * (it.quantity : ℚ)) rest).sum =
          total + (List.map (fun it => okPrice (lookup it.id) * (it.quantity : ℚ)) (item :: rest)).sum := by
        simp only [List.map_cons, List.sum_cons, hop]
        ring
      rw [harith]
      simp [List.append_assoc]
    · intro it hit
      rcases List.mem_cons.mp hit with hhead | htail
      · rw [hhead]
        by_cases hdup : ∃ it2 ∈ rest, it2.id = item.id
        · obtain ⟨it2, hit2, hid⟩ := hdup
          have h2 := hmem it2 hit2
          rw [hid] at h2
          exact h2
        · push_neg at hdup
          have h3 := hout item.id hdup
          rw [h3]
          simp [mapInsert, hp, okPrice]
      · exact hmem it htail
    · intro x hx
      have h4 := hout x (fun it hit => hx it (List.mem_cons_of_mem _ hit))
      rw [h4]
      have hne := hx item (List.mem_cons_self item rest)
      simp only [mapInsert]
      rw [if_neg (fun hxx => hne hxx.symm)]

/-- When the lines before some failing line all resolve and that line's
lookup fails, the product loop records exactly the lookups up to and
including the failing line and aborts with the product-validation error
naming the failing line's product id, wrapping the lookup's error. -/
theorem productLoop_err (lookup : String → Except GoError Product)
    (pre : List ProductItem) (item : ProductItem) (post : List ProductItem)
    (total : ℚ) (m : String → ℚ) (evs : List Event) (e : GoError)
    (hpre : ∀ it ∈ pre, ∃ p, lookup it.id = .ok p)
    (hk : lookup item.id = .error e) :
    productLoop lookup (pre ++ item :: post) total m evs =
      (evs ++ pre.map (fun it => Event.productLookup it.id) ++ [Event.productLookup item.id],
       .error (.wrap ("product validation failed for product ID " ++ item.id) e)) := by
  induction pre generalizing total m evs with
  | nil =>
    simp only [List.nil_append, productLoop, hk, List.map_nil, List.append_nil]
  | cons a rest ih =>
    obtain ⟨p, hp⟩ := hpre a (List.mem_cons_self a rest)
    have hrest : ∀ it ∈ rest, ∃ q, lookup it.id = .ok q :=
      fun it hit => hpre it (List.mem_cons_of_mem _ hit)
    simp only [List.cons_append, productLoop, hp, List.append_eq]
    rw [ih _ _ _ hrest]
    simp [List.append_assoc]

/-- If the product loop returns a success value, its event list is the
initial events followed by one lookup event per line. -/
theorem productLoop_events_of_ok (lookup : String → Except GoError Product)
    (l : List ProductItem) :
    ∀ (total : ℚ) (m : String → ℚ) (evs evs2 : List Event)
      (r : ℚ × (String → ℚ)),
      productLoop lookup l total m evs = (evs2, .ok r) →
      evs2 = evs ++ l.map (fun it => Event.productLookup it.id) := by
  induction l with
  | nil =>
    intro total m evs evs2 r h
    simp only [productLoop, Prod.mk.injEq] at h
    simp [← h.1]
  | cons item rest ih =>
    intro total m evs evs2 r h
    simp only [productLoop] at h
    cases hp : lookup item.id with
    | error e =>
      rw [hp] at h
      simp [Prod.mk.injEq] at h
    | ok p =>
      rw [hp] at h
      have := ih _ _ _ _ _ h
      simp [this, List.append_assoc]

/-- When the client resolves, every line resolves and construction
succeeds, CreateOrder reaches the persistence step with the aggregate
built from the computed items and total; its outcome is exactly the
persistence outcome, wrapped on failure. -/
theorem CreateOrder_ok_shape (S : Collab) (req : CreateOrderRequest) (c : Client)
    (hcc : S.clientLookup req.client = .ok c)
    (hp : ∀ it ∈ req.products, ∃ p, S.productLookup it.id = .ok p)
    (hv : S.validateOrder = fun _ _ _ _ => none) :
    ∃ m2 order,
      (∀ it ∈ req.products, m2 it.id = okPrice (S.productLookup it.id)) ∧
      order = Order.mk S.freshId req.client (ConvertDTOtoSlice req.products m2)
        req.status
        ((req.products.map fun it =>
          okPrice (S.productLookup it.id) * (it.quantity : ℚ)).sum) ∧
      CreateOrder S req =
        (match S.repoCreateOrder order with
         | .error e =>
           (([Event.clientLookup req.client] ++
              req.products.map (fun it => Event.productLookup it.id)) ++
              [Event.repoCreateOrder order],
            .error (.wrap "failed to save order" e))
         | .ok saved =>
           (([Event.clientLookup req.client] ++
              req.products.map (fun it => Event.productLookup it.id)) ++
              [Event.repoCreateOrder order],
            .ok saved)) := by
  obtain ⟨m2, heq, hmem, hout⟩ := productLoop_ok S.productLookup req.products 0
    (fun _ => 0) [Event.clientLookup req.client] hp
  rw [zero_add] at heq
  refine ⟨m2, _, hmem, rfl, ?_⟩
  unfold CreateOrder NewOrder
  rw [hcc, heq, hv]

/-- C1: for every creation request whose client lookup succeeds and
whose product lookups all succeed (and whose aggregate construction
succeeds), the constructed Order — the one handed to the repository —
has a total equal to the sum over the lines of the unit price returned
by Product Lookup for that line times that line's quantity, and equal
to the sum of the line totals stored in its items. Monetary values are
exact rationals, so the equality is exact. -/
theorem createOrder_total_eq_sum (S : Collab) (req : CreateOrderRequest)
    (hc : ∃ c, S.clientLookup req.client = .ok c)
    (hp : ∀ it ∈ req.products, ∃ p, S.productLookup it.id = .ok p)
    (hv : S.validateOrder = fun _ _ _ _ => none) :
    ∃ order evs,
      (CreateOrder S req).1 = evs ++ [Event.repoCreateOrder order] ∧
      order.total = (req.products.map fun it =>
        okPrice (S.productLookup it.id) * (it.quantity : ℚ)).sum ∧
      order.total = (order.items.map OrderItem.price).sum := by
  obtain ⟨c, hcc⟩ := hc
  obtain ⟨m2, order, hmem, horder, hshape⟩ := CreateOrder_ok_shape S req c hcc hp hv
  refine ⟨order,
    [Event.clientLookup req.client] ++
      req.products.map (fun it => Event.productLookup it.id), ?_, ?_, ?_⟩
  · rw [hshape]
    cases S.repoCreateOrder order <;> rfl
  · rw [horder]
  · rw [horder]
    have hitems : (ConvertDTOtoSlice req.products m2).map OrderItem.price =
        req.products.map (fun it =>
          okPrice (S.productLookup it.id) * (it.quantity : ℚ)) := by
      unfold ConvertDTOtoSlice
      rw [List.map_map]
      refine List.map_congr_left ?_
      intro it hit
      simp [Function.comp, hmem it hit]
    show ((req.products.map fun it =>
      okPrice (S.productLookup it.id) * (it.quantity : ℚ)).sum) = _
    rw [hitems]

/-- Witness for C1: the spec's concrete scenario (client 11122233344,
P1 price 10 quantity 2, P2 price 11/2 quantity 3). -/
theorem createOrder_total_eq_sum_witness :
    (∃ c, demoCollab.clientLookup demoReq.client = .ok c) ∧
    (∀ it ∈ demoReq.products, ∃ p, demoCollab.productLookup it.id = .ok p) ∧
    demoCollab.validateOrder = (fun _ _ _ _ => none) ∧
    (∃ order evs,
      (CreateOrder demoCollab demoReq).1 = evs ++ [Event.repoCreateOrder order] ∧
      order.total = (demoReq.products.map fun it =>
        okPrice (demoCollab.productLookup it.id) * (it.quantity : ℚ)).sum ∧
      order.total = (order.items.map OrderItem.price).sum) := by
  have hp : ∀ it ∈ demoReq.products, ∃ p, demoCollab.productLookup it.id = .ok p := by
    intro it hit
    fin_cases hit <;> exact ⟨_, rfl⟩
  exact ⟨⟨{ id := "11122233344" }, rfl⟩, hp, rfl,
    createOrder_total_eq_sum demoCollab demoReq ⟨{ id := "11122233344" }, rfl⟩ hp rfl⟩

/-- C2: when the client resolves, the lookups before the K-th line all
succeed and the K-th line's lookup fails, CreateOrder returns the
product-validation error naming exactly that line's product id and
wrapping the lookup's error; the recorded collaborator calls are the
client lookup and the product lookups up to and including position K —
no later product is looked up and the repository's CreateOrder is
never invoked. -/
theorem createOrder_product_failFast (S : Collab) (req : CreateOrderRequest)
    (pre : List ProductItem) (item : ProductItem) (post : List ProductItem)
    (c : Client) (e : GoError)
    (hreq : req.products = pre ++ item :: post)
    (hcc : S.clientLookup req.client = .ok c)
    (hpre : ∀ it ∈ pre, ∃ p, S.productLookup it.id = .ok p)
    (hk : S.productLookup item.id = .error e) :
    CreateOrder S req =
      ([Event.clientLookup req.client] ++
         pre.map (fun it => Event.productLookup it.id) ++
         [Event.productLookup item.id],
       .error (.wrap ("product validation failed for product ID " ++ item.id) e)) := by
  unfold CreateOrder
  rw [hcc, hreq,
    productLoop_err S.productLookup pre item post 0 (fun _ => 0)
      [Event.clientLookup req.client] e hpre hk]

/-- Witness for C2: the request whose second line references the
unknown product P9; only P1 and P9 are looked up, P2 is not, and no
repository write is recorded. -/
theorem createOrder_product_failFast_witness :
    demoReqP9.products =
      [{ id := "P1", quantity := 2 }] ++
        { id := "P9", quantity := 1 } :: [{ id := "P2", quantity := 3 }] ∧
    demoCollab.clientLookup demoReqP9.client = .ok { id := "11122233344" } ∧
    (∀ it ∈ [({ id := "P1", quantity := 2 } : ProductItem)],
      ∃ p, demoCollab.productLookup it.id = .ok p) ∧
    demoCollab.productLookup "P9" = .error (.msg "product not found") ∧
    CreateOrder demoCollab demoReqP9 =
      ([Event.clientLookup "11122233344"] ++
         [({ id := "P1", quantity := 2 } : ProductItem)].map
           (fun it => Event.productLookup it.id) ++
         [Event.productLookup "P9"],
       .error (.wrap ("product validation failed for product ID " ++ "P9")
         (.msg "product not found"))) := by
  have hpre : ∀ it ∈ [({ id := "P1", quantity := 2 } : ProductItem)],
      ∃ p, demoCollab.productLookup it.id = .ok p := by
    intro it hit
    fin_cases hit
    exact ⟨_, rfl⟩
  exact ⟨rfl, rfl, hpre, rfl,
    createOrder_product_failFast demoCollab demoReqP9
      [{ id := "P1", quantity := 2 }] { id := "P9", quantity := 1 }
      [{ id := "P2", quantity := 3 }] { id := "11122233344" }
      (.msg "product not found") rfl rfl hpre rfl⟩

/-- C3: when the client lookup fails, CreateOrder returns the
client-validation error wrapping the underlying cause, and the only
collaborator call recorded is the client lookup itself — no product is
looked up and the repository's CreateOrder is never invoked. -/
theorem createOrder_clientFail (S : Collab) (req : CreateOrderRequest) (e : GoError)
    (h : S.clientLookup req.client = .error e) :
    CreateOrder S req =
      ([Event.clientLookup req.client],
       .error (.wrap "client validation failed" e)) := by
  unfold CreateOrder
  rw [h]

/-- Witness for C3: the unknown client 00000000000. -/
theorem createOrder_clientFail_witness :
    demoCollab.clientLookup demoReqBadClient.client = .error (.msg "client not found") ∧
    CreateOrder demoCollab demoReqBadClient =
      ([Event.clientLookup "00000000000"],
       .error (.wrap "client validation failed" (.msg "client not found"))) :=
  ⟨rfl, createOrder_clientFail demoCollab demoReqBadClient (.msg "client not found") rfl⟩

/-- C4: GetOrders calls the repository with page replaced by 1 when
page ≤ 0 and size replaced by 10 when size ≤ 0, returns exactly the
repository's answer — errors unchanged, never failing on the
pagination inputs themselves — and in particular GetOrders 0 (-5)
behaves identically to GetOrders 1 10. -/
theorem getOrders_normalizes (S : Collab) (page size : Int) :
    GetOrders S page size =
      ([Event.repoGetOrders (if page ≤ 0 then 1 else page)
          (if size ≤ 0 then 10 else size)],
       S.repoGetOrders (if page ≤ 0 then 1 else page)
         (if size ≤ 0 then 10 else size)) ∧
    GetOrders S 0 (-5) = GetOrders S 1 10 := by
  constructor
  · unfold GetOrders
    cases hR : S.repoGetOrders (if page ≤ 0 then 1 else page)
      (if size ≤ 0 then 10 else size) <;> simp [hR]
  · unfold GetOrders
    norm_num

/-- C5: an identifier that does not parse as a UUID makes GetOrderByID
return the invalid-format error wrapping the parse failure, with no
collaborator call recorded — the repository is never contacted. -/
theorem getOrderByID_invalidFormat (S : Collab) (id : String) (e : GoError)
    (h : uuidParse id = .error e) :
    GetOrderByID S id = ([], .error (.wrap "invalid ID format" e)) := by
  unfold GetOrderByID
  rw [h]

/-- Witness for C5: the string not-a-uuid, rejected for its length. -/
theorem getOrderByID_invalidFormat_witness :
    uuidParse "not-a-uuid" = .error (.msg "invalid UUID length: 10") ∧
    GetOrderByID demoCollab "not-a-uuid" =
      ([], .error (.wrap "invalid ID format" (.msg "invalid UUID length: 10"))) :=
  ⟨rfl, getOrderByID_invalidFormat demoCollab "not-a-uuid"
    (.msg "invalid UUID length: 10") rfl⟩

/-- C6 counterexample: the claim says a repository error other than
not-found surfaces as a RepositoryError distinguishable by the caller
from OrderNotFound. In the code every repository error — the driver's
not-found result and a connection failure alike — is wrapped in the
same "order not found" error, so the two kinds are not distinguishable
at the error's top level. -/
theorem getOrderByID_kinds_counterexample :
    (GetOrderByID demoCollab validId).2 =
      .error (.wrap "order not found" (.msg "mongo: no documents in result")) ∧
    (GetOrderByID repoDownCollab validId).2 =
      .error (.wrap "order not found" (.msg "connection refused")) :=
  ⟨rfl, rfl⟩

/-- C6 amended: for every well-formed identifier, any repository
error — not-found or any other failure — is wrapped in the single
"order not found" error with the original cause preserved; the service
exposes no separate RepositoryError kind, so the caller can
distinguish the causes only through the wrapped error. -/
theorem getOrderByID_wraps_repo_errors (S : Collab) (id : String) (u : UUID)
    (e : GoError)
    (hid : uuidParse id = .ok u)
    (hrepo : S.repoGetOrderByID (uuidString u) = .error e) :
    GetOrderByID S id =
      ([Event.repoGetOrder (uuidString u)],
       .error (.wrap "order not found" e)) := by
  unfold GetOrderByID
  rw [hid]
  dsimp only
  rw [hrepo]

/-- Witness for the amended C6: a valid identifier against the
repository whose lookup reports the driver's not-found error. -/
theorem getOrderByID_wraps_repo_errors_witness :
    uuidParse validId = .ok validIdBytes ∧
    demoCollab.repoGetOrderByID (uuidString validIdBytes) =
      .error (.msg "mongo: no documents in result") ∧
    GetOrderByID demoCollab validId =
      ([Event.repoGetOrder (uuidString validIdBytes)],
       .error (.wrap "order not found" (.msg "mongo: no documents in result"))) :=
  ⟨rfl, rfl, getOrderByID_wraps_repo_errors demoCollab validId validIdBytes
    (.msg "mongo: no documents in result") rfl rfl⟩

/-- C7: a creation request with an empty product list is not rejected
by the assembly layer: the client lookup is still performed (and is
the only lookup recorded), the aggregate constructor is called with an
empty item list and a total of 0, and the request fails before
persistence only if construction itself fails, with the construction
error wrapped; when construction succeeds the empty order proceeds to
the repository. -/
theorem createOrder_emptyProducts (S : Collab) (req : CreateOrderRequest) (c : Client)
    (hreq : req.products = [])
    (hcc : S.clientLookup req.client = .ok c) :
    (∀ e, S.validateOrder req.client [] req.status 0 = some e →
      CreateOrder S req =
        ([Event.clientLookup req.client],
         .error (.wrap "failed to create order instance" e))) ∧
    (S.validateOrder req.client [] req.status 0 = none →
      CreateOrder S req =
        ([Event.clientLookup req.client,
          Event.repoCreateOrder
            { id := S.freshId, client := req.client, items := [],
              status := req.status, total := 0 }],
         match S.repoCreateOrder
             { id := S.freshId, client := req.client, items := [],
               status := req.status, total := 0 } with
         | .error e2 => .error (.wrap "failed to save order" e2)
         | .ok saved => .ok saved)) := by
  constructor
  · intro e he
    unfold CreateOrder NewOrder
    rw [hcc, hreq]
    dsimp only [productLoop, ConvertDTOtoSlice, List.map_nil]
    rw [he]
  · intro hn
    unfold CreateOrder NewOrder
    rw [hcc, hreq]
    dsimp only [productLoop, ConvertDTOtoSlice, List.map_nil]
    rw [hn]
    dsimp only
    cases hR : S.repoCreateOrder
      { id := S.freshId, client := req.client, items := [],
        status := req.status, total := 0 } <;> rfl

/-- Witness for C7: the empty request against the demo collaborators,
whose constructor accepts every input; the empty order with total 0 is
constructed and persisted. -/
theorem createOrder_emptyProducts_witness :
    demoReqEmpty.products = [] ∧
    demoCollab.clientLookup demoReqEmpty.client = .ok { id := "11122233344" } ∧
    ((∀ e, demoCollab.validateOrder demoReqEmpty.client [] demoReqEmpty.status 0 = some e →
      CreateOrder demoCollab demoReqEmpty =
        ([Event.clientLookup demoReqEmpty.client],
         .error (.wrap "failed to create order instance" e))) ∧
    (demoCollab.validateOrder demoReqEmpty.client [] demoReqEmpty.status 0 = none →
      CreateOrder demoCollab demoReqEmpty =
        ([Event.clientLookup demoReqEmpty.client,
          Event.repoCreateOrder
            { id := demoCollab.freshId, client := demoReqEmpty.client, items := [],
              status := demoReqEmpty.status, total := 0 }],
         match demoCollab.repoCreateOrder
             { id := demoCollab.freshId, client := demoReqEmpty.client, items := [],
               status := demoReqEmpty.status, total := 0 } with
         | .error e2 => .error (.wrap "failed to save order" e2)
         | .ok saved => .ok saved))) :=
  ⟨rfl, rfl,
    createOrder_emptyProducts demoCollab demoReqEmpty { id := "11122233344" } rfl rfl⟩

/-- C8 counterexample: the claim says a request containing a line
whose quantity is not positive makes CreateOrder return an error. On
the request whose single line has quantity 0, with the client and the
product resolvable and construction and persistence succeeding,
CreateOrder returns the persisted order — no error: the code performs
no quantity validation. -/
theorem createOrder_zeroQty_counterexample :
    (CreateOrder demoCollab demoReqZeroQty).2 = .ok zeroQtyOrder := by
  norm_num [CreateOrder, productLoop, mapInsert, ConvertDTOtoSlice, NewOrder,
    demoCollab, demoReqZeroQty, zeroQtyOrder]

/-- C8 amended: CreateOrder performs no quantity validation at the
assembly layer. A request containing a line with non-positive quantity
is not rejected: when the client and all products resolve and
construction and persistence succeed, CreateOrder returns an order,
and every requested line — the non-positive one included — appears in
the order's items with its quantity unchanged and line total
unit price × quantity. -/
theorem createOrder_no_qty_validation (S : Collab) (req : CreateOrderRequest)
    (_hq : ∃ it ∈ req.products, it.quantity ≤ 0)
    (hc : ∃ c, S.clientLookup req.client = .ok c)
    (hp : ∀ it ∈ req.products, ∃ p, S.productLookup it.id = .ok p)
    (hv : S.validateOrder = fun _ _ _ _ => none)
    (hr : ∀ o, S.repoCreateOrder o = .ok o) :
    ∃ order, (CreateOrder S req).2 = .ok order ∧
      ∀ it ∈ req.products,
        OrderItem.mk it.id it.quantity
          (okPrice (S.productLookup it.id) * (it.quantity : ℚ)) ∈ order.items := by
  obtain ⟨c, hcc⟩ := hc
  obtain ⟨m2, order, hmem, horder, hshape⟩ := CreateOrder_ok_shape S req c hcc hp hv
  refine ⟨order, ?_, ?_⟩
  · rw [hshape, hr order]
  · intro it hit
    rw [horder]
    show _ ∈ ConvertDTOtoSlice req.products m2
    unfold ConvertDTOtoSlice
    refine List.mem_map.mpr ⟨it, hit, ?_⟩
    rw [hmem it hit]

/-- Witness for the amended C8: the zero-quantity request against the
demo collaborators. -/
theorem createOrder_no_qty_validation_witness :
    (∃ it ∈ demoReqZeroQty.products, it.quantity ≤ 0) ∧
    (∃ c, demoCollab.clientLookup demoReqZeroQty.client = .ok c) ∧
    (∀ it ∈ demoReqZeroQty.products, ∃ p, demoCollab.productLookup it.id = .ok p) ∧
    demoCollab.validateOrder = (fun _ _ _ _ => none) ∧
    (∀ o, demoCollab.repoCreateOrder o = .ok o) ∧
    (∃ order, (CreateOrder demoCollab demoReqZeroQty).2 = .ok order ∧
      ∀ it ∈ demoReqZeroQty.products,
        OrderItem.mk it.id it.quantity
          (okPrice (demoCollab.productLookup it.id) * (it.quantity : ℚ)) ∈ order.items) := by
  have hq : ∃ it ∈ demoReqZeroQty.products, it.quantity ≤ 0 :=
    ⟨{ id := "P1", quantity := 0 }, by simp [demoReqZeroQty], by norm_num⟩
  have hp : ∀ it ∈ demoReqZeroQty.products, ∃ p, demoCollab.productLookup it.id = .ok p := by
    intro it hit
    fin_cases hit
    exact ⟨_, rfl⟩
  exact ⟨hq, ⟨{ id := "11122233344" }, rfl⟩, hp, rfl, fun o => rfl,
    createOrder_no_qty_validation demoCollab demoReqZeroQty hq
      ⟨{ id := "11122233344" }, rfl⟩ hp rfl (fun o => rfl)⟩

/-- C9: for every identifier that parses, GetOrderByID queries the
repository with the canonical re-serialization of the parsed UUID
(lower-case hyphenated), so any two textual representations of the
same UUID produce the same repository query. -/
theorem getOrderByID_canonicalizes (S : Collab) (id : String) (u : UUID)
    (h : uuidParse id = .ok u) :
    (GetOrderByID S id).1 = [Event.repoGetOrder (uuidString u)] ∧
    ∀ id2, uuidParse id2 = .ok u →
      (GetOrderByID S id2).1 = (GetOrderByID S id).1 := by
  have key : ∀ s, uuidParse s = .ok u →
      (GetOrderByID S s).1 = [Event.repoGetOrder (uuidString u)] := by
    intro s hs
    unfold GetOrderByID
    rw [hs]
    dsimp only
    cases hR : S.repoGetOrderByID (uuidString u) <;> rfl
  exact ⟨key id h, fun id2 h2 => (key id2 h2).trans (key id h).symm⟩

/-- Witness for C9: the upper-case spelling of validId parses to the
same bytes, and the repository is queried with the lower-case
canonical form. -/
theorem getOrderByID_canonicalizes_witness :
    uuidParse validIdUpper = .ok validIdBytes ∧
    ((GetOrderByID demoCollab validIdUpper).1 =
        [Event.repoGetOrder (uuidString validIdBytes)] ∧
      ∀ id2, uuidParse id2 = .ok validIdBytes →
        (GetOrderByID demoCollab id2).1 = (GetOrderByID demoCollab validIdUpper).1) :=
  ⟨rfl, getOrderByID_canonicalizes demoCollab validIdUpper validIdBytes rfl⟩

/-- C10: every creation request that completes successfully recorded
exactly this collaborator-call sequence: one client lookup, then one
product lookup per requested line in submission order, then exactly
one repository CreateOrder call with the assembled aggregate — the
write comes last, after all lookups. -/
theorem createOrder_callSequence (S : Collab) (req : CreateOrderRequest) (o : Order)
    (h : (CreateOrder S req).2 = .ok o) :
    ∃ order,
      (CreateOrder S req).1 =
        [Event.clientLookup req.client] ++
          req.products.map (fun it => Event.productLookup it.id) ++
          [Event.repoCreateOrder order] := by
  unfold CreateOrder at h ⊢
  cases hcl : S.clientLookup req.client with
  | error e =>
    rw [hcl] at h
    simp at h
  | ok c =>
    rw [hcl] at h
    dsimp only at h ⊢
    rcases hpl : productLoop S.productLookup req.products 0 (fun _ => 0)
      [Event.clientLookup req.client] with ⟨evs, r⟩
    cases r with
    | error e =>
      rw [hpl] at h
      simp at h
    | ok tp =>
      obtain ⟨total, m2⟩ := tp
      rw [hpl] at h
      have hevs : evs = [Event.clientLookup req.client] ++
          req.products.map (fun it => Event.productLookup it.id) :=
        productLoop_events_of_ok S.productLookup req.products 0 (fun _ => 0)
          [Event.clientLookup req.client] evs (total, m2) hpl
      dsimp only at h ⊢
      unfold NewOrder at h ⊢
      cases hV : S.validateOrder req.client (ConvertDTOtoSlice req.products m2)
          req.status total with
      | some e =>
        rw [hV] at h
        simp at h
      | none =>
        rw [hV] at h
        dsimp only at h ⊢
        cases hR : S.repoCreateOrder
            { id := S.freshId, client := req.client,
              items := ConvertDTOtoSlice req.products m2,
              status := req.status, total := total } with
        | error e =>
          rw [hR] at h
          simp at h
        | ok saved =>
          refine ⟨Order.mk S.freshId req.client (ConvertDTOtoSlice req.products m2)
            req.status total, ?_⟩
          dsimp only
          rw [hevs]

/-- Witness for C10: the demo scenario completes successfully and its
trace is exactly client lookup, the two product lookups in submission
order, then the single repository write. -/
theorem createOrder_callSequence_witness :
    (CreateOrder demoCollab demoReq).2 = .ok demoOrder ∧
    (∃ order,
      (CreateOrder demoCollab demoReq).1 =
        [Event.clientLookup demoReq.client] ++
          demoReq.products.map (fun it => Event.productLookup it.id) ++
          [Event.repoCreateOrder order]) := by
  have h : (CreateOrder demoCollab demoReq).2 = .ok demoOrder := by
    simp [CreateOrder, productLoop, mapInsert, ConvertDTOtoSlice, NewOrder,
      demoCollab, demoReq, demoOrder]
    norm_num
  exact ⟨h, createOrder_callSequence demoCollab demoReq demoOrder h⟩

end TechChallenge
